import Mathlib

set_option maxRecDepth 4000
set_option linter.unusedVariables false

/-!
Shallow embedding of the receipt-tracking bot (src/bot.py).

Conventions used throughout:
* Python `float` values are modelled as rationals (`Rat`); the arithmetic the
  bot performs on them (parsing, comparison, addition) is exact at the scale of
  receipt amounts, so the rational idealization does not change any branch.
* Python `str` values are Lean `String`s; `str.strip()`, `str.lower()` and
  single-character `str.replace` are modelled explicitly below for ASCII input.
* The dynamically-typed values coming out of `json.loads` are modelled by the
  inductive `PyJson`.  The `ReceiptData` dataclass annotates its fields with
  `str`/`List`, but Python does not enforce annotations and
  `OpenAIAnalyzer.analyze_receipt` stores whatever JSON value is present, so the
  corresponding fields are modelled as `PyJson` values; `total_amount` and
  `confidence` go through `float(...)` in the source and are therefore `Rat`.
-/

/-- Characters removed by Python's `str.strip()` (ASCII whitespace). -/
def isPySpace (c : Char) : Bool :=
  c = ' ' || c = '\t' || c = '\n' || c = '\r' || c = Char.ofNat 11 || c = Char.ofNat 12

/-- Python `str.strip()`: drop leading and trailing whitespace. -/
def pyStrip (s : String) : String :=
  String.mk (((s.toList.dropWhile isPySpace).reverse.dropWhile isPySpace).reverse)

/-- Python `str.lower()` restricted to ASCII letters. -/
def pyLower (s : String) : String :=
  String.mk (s.toList.map Char.toLower)

/-- Python `s.replace(c, "")` for a one-character pattern. -/
def removeChar (c : Char) (s : String) : String :=
  String.mk (s.toList.filter (fun x => x ≠ c))

/-- Values produced by Python's `json.loads`. -/
inductive PyJson where
  | null
  | bool (b : Bool)
  | num (q : Rat)
  | str (s : String)
  | arr (elts : List PyJson)
  | obj (entries : List (String × PyJson))
deriving Repr, Inhabited, BEq

/-- Python truthiness (`if x:` / `x or y`) for the values we track. -/
def PyJson.truthy : PyJson → Bool
  | .null => false
  | .bool b => b
  | .num q => decide (q ≠ 0)
  | .str s => decide (s ≠ "")
  | .arr l => !l.isEmpty
  | .obj l => !l.isEmpty

/-- JSON whitespace accepted between tokens by `json.loads`. -/
def isJsonSpace (c : Char) : Bool :=
  c = ' ' || c = '\t' || c = '\n' || c = '\r'

def skipJsonSpace : List Char → List Char
  | [] => []
  | c :: cs => if isJsonSpace c then skipJsonSpace cs else c :: cs

def spanDigits (cs : List Char) : List Char × List Char :=
  (cs.takeWhile Char.isDigit, cs.dropWhile Char.isDigit)

def natOfDigits (ds : List Char) : Nat :=
  ds.foldl (fun a c => 10 * a + (c.toNat - 48)) 0

def hexVal (c : Char) : Option Nat :=
  if c.isDigit then some (c.toNat - 48)
  else if 'a' ≤ c && c ≤ 'f' then some (c.toNat - 87)
  else if 'A' ≤ c && c ≤ 'F' then some (c.toNat - 55)
  else none

/-- Single-character JSON string escapes. -/
def escapeChar (c : Char) : Option Char :=
  if c = '"' then some '"'
  else if c = '\\' then some '\\'
  else if c = '/' then some '/'
  else if c = 'b' then some (Char.ofNat 8)
  else if c = 'f' then some (Char.ofNat 12)
  else if c = 'n' then some '\n'
  else if c = 'r' then some '\r'
  else if c = 't' then some '\t'
  else none

/-- Body of a JSON string literal (opening quote already consumed).
    Surrogate-pair recombination for `\u` escapes is not modelled. -/
def parseJsonStr : List Char → List Char → Option (String × List Char)
  | acc, [] => none
  | acc, c :: cs =>
    if c = '"' then some (String.mk acc.reverse, cs)
    else if c = '\\' then
      match cs with
      | [] => none
      | 'u' :: h1 :: h2 :: h3 :: h4 :: cs2 =>
        match hexVal h1, hexVal h2, hexVal h3, hexVal h4 with
        | some a, some b, some c3, some d =>
          parseJsonStr (Char.ofNat (((a * 16 + b) * 16 + c3) * 16 + d) :: acc) cs2
        | _, _, _, _ => none
      | e :: cs2 =>
        match escapeChar e with
        | some d => parseJsonStr (d :: acc) cs2
        | none => none
    else if c.toNat < 32 then none
    else parseJsonStr (c :: acc) cs

/-- A JSON number per the grammar `json.loads` accepts
    (`-? (0|[1-9][0-9]*) (. [0-9]+)? ([eE][+-]?[0-9]+)?`). -/
def parseJsonNum (cs : List Char) : Option (Rat × List Char) :=
  let p := match cs with
    | '-' :: r => ((-1 : Int), r)
    | r => ((1 : Int), r)
  let sign := p.1
  let cs1 := p.2
  match cs1 with
  | [] => none
  | d :: _ =>
    if !d.isDigit then none
    else
      let ip := (spanDigits cs1).1
      let cs2 := (spanDigits cs1).2
      if ip.length > 1 && ip.headD '0' = '0' then none
      else
        let q := match cs2 with
          | '.' :: r => (some ((spanDigits r).1), (spanDigits r).2)
          | r => (none, r)
        let fr := q.1
        let cs3 := q.2
        if fr = some [] then none
        else
          let frd := fr.getD []
          let mantNum : Int := sign * (natOfDigits ip * 10 ^ frd.length + natOfDigits frd)
          let mantDen : Nat := 10 ^ frd.length
          match cs3 with
          | 'e' :: r | 'E' :: r =>
            let w := match r with
              | '+' :: r2 => (true, r2)
              | '-' :: r2 => (false, r2)
              | r2 => (true, r2)
            let ed := (spanDigits w.2).1
            let r3 := (spanDigits w.2).2
            if ed.isEmpty then none
            else
              let e := natOfDigits ed
              some (if w.1 then mkRat (mantNum * 10 ^ e) mantDen
                    else mkRat mantNum (mantDen * 10 ^ e), r3)
          | r => some (mkRat mantNum mantDen, r)

mutual

/-- One JSON value, fuel-bounded recursive descent (models `json.loads`). -/
def parseJsonVal : Nat → List Char → Option (PyJson × List Char)
  | 0, _ => none
  | Nat.succ fuel, cs =>
    match skipJsonSpace cs with
    | [] => none
    | c :: rest =>
      if c = '"' then
        match parseJsonStr [] rest with
        | some (s, r) => some (.str s, r)
        | none => none
      else if c = Char.ofNat 123 then
        match skipJsonSpace rest with
        | c2 :: r2 =>
          if c2 = Char.ofNat 125 then some (.obj [], r2)
          else parseJsonMembers fuel (c2 :: r2) []
        | [] => none
      else if c = '[' then
        match skipJsonSpace rest with
        | c2 :: r2 =>
          if c2 = ']' then some (.arr [], r2)
          else parseJsonElems fuel (c2 :: r2) []
        | [] => none
      else if c = 't' then
        match rest with
        | 'r' :: 'u' :: 'e' :: r => some (.bool true, r)
        | _ => none
      else if c = 'f' then
        match rest with
        | 'a' :: 'l' :: 's' :: 'e' :: r => some (.bool false, r)
        | _ => none
      else if c = 'n' then
        match rest with
        | 'u' :: 'l' :: 'l' :: r => some (.null, r)
        | _ => none
      else
        match parseJsonNum (c :: rest) with
        | some (q, r) => some (.num q, r)
        | none => none

/-- Comma-separated array elements after a non-empty opening. -/
def parseJsonElems : Nat → List Char → List PyJson → Option (PyJson × List Char)
  | 0, _, _ => none
  | Nat.succ fuel, cs, acc =>
    match parseJsonVal fuel cs with
    | none => none
    | some (v, r) =>
      match skipJsonSpace r with
      | ',' :: r2 => parseJsonElems fuel r2 (v :: acc)
      | ']' :: r2 => some (.arr (v :: acc).reverse, r2)
      | _ => none

/-- Comma-separated object members after a non-empty opening. -/
def parseJsonMembers : Nat → List Char → List (String × PyJson) →
    Option (PyJson × List Char)
  | 0, _, _ => none
  | Nat.succ fuel, cs, acc =>
    match skipJsonSpace cs with
    | '"' :: r =>
      match parseJsonStr [] r with
      | none => none
      | some (k, r1) =>
        match skipJsonSpace r1 with
        | ':' :: r2 =>
          match parseJsonVal fuel r2 with
          | none => none
          | some (v, r3) =>
            match skipJsonSpace r3 with
            | ',' :: r4 => parseJsonMembers fuel r4 ((k, v) :: acc)
            | c :: r4 =>
              if c = Char.ofNat 125 then some (.obj ((k, v) :: acc).reverse, r4)
              else none
            | [] => none
        | _ => none
    | _ => none

end

/-- `json.loads`: a single JSON document, optionally surrounded by whitespace. -/
def pyJsonLoads (s : String) : Option PyJson :=
  let cs := s.toList
  match parseJsonVal (2 * cs.length + 4) cs with
  | some (v, r) => if (skipJsonSpace r).isEmpty then some v else none
  | none => none

/-- `dict.get(k, d)` on the dict built by `json.loads`
    (duplicate keys: the last occurrence wins, as in a Python dict). -/
def dictGet (entries : List (String × PyJson)) (k : String) (d : PyJson) : PyJson :=
  match entries.reverse.find? (fun p => p.1 == k) with
  | some p => p.2
  | none => d

/-- Python `float(s)` on a string: optional surrounding whitespace, optional
    sign, digits with an optional fractional part (at least one digit overall),
    optional exponent.  (`inf`/`nan` literals and PEP-515 underscores are not
    modelled; on those inputs this model re-prompts where CPython would parse,
    which no claim exercises.) -/
def pyFloatStr (s : String) : Option Rat :=
  let cs := (pyStrip s).toList
  let p := match cs with
    | '+' :: r => ((1 : Int), r)
    | '-' :: r => ((-1 : Int), r)
    | r => ((1 : Int), r)
  let sign := p.1
  let cs1 := p.2
  let ip := (spanDigits cs1).1
  let cs2 := (spanDigits cs1).2
  let q := match cs2 with
    | '.' :: r => (some ((spanDigits r).1), (spanDigits r).2)
    | r => (none, r)
  let fr := q.1
  let cs3 := q.2
  if ip.isEmpty && (fr.getD []).isEmpty then none
  else
    let frd := fr.getD []
    let mantNum : Int := sign * (natOfDigits ip * 10 ^ frd.length + natOfDigits frd)
    let mantDen : Nat := 10 ^ frd.length
    match cs3 with
    | [] => some (mkRat mantNum mantDen)
    | c :: r =>
      if c = 'e' || c = 'E' then
        let w := match r with
          | '+' :: r2 => (true, r2)
          | '-' :: r2 => (false, r2)
          | r2 => (true, r2)
        let ed := (spanDigits w.2).1
        let r3 := (spanDigits w.2).2
        if ed.isEmpty || !r3.isEmpty then none
        else some (if w.1 then mkRat (mantNum * 10 ^ natOfDigits ed) mantDen
                   else mkRat mantNum (mantDen * 10 ^ natOfDigits ed))
      else none

/-- Python `float(x)` on a `json.loads` value.  `None`, lists and dicts raise
    (`TypeError`), modelled as `none`; `bool` is an `int` subclass in Python. -/
def pyFloatOfJson : PyJson → Option Rat
  | .num q => some q
  | .bool b => some (if b then 1 else 0)
  | .str s => pyFloatStr s
  | _ => none

/-- `ReceiptData` (src/bot.py lines 61-74), dataclass defaults included
    (`__post_init__` turns `items=None` into `[]`). -/
structure ReceiptData where
  store_name : PyJson := .str ""
  total_amount : Rat := 0
  date : PyJson := .str ""
  currency : PyJson := .str "USD"
  items : PyJson := .arr []
  summary : PyJson := .str ""
  confidence : Rat := 0
deriving Repr

/-- The code-fence stripping in `analyze_receipt` (src/bot.py lines 152-159):
    strip whitespace, drop a leading "```json" (7 chars), then a leading "```",
    then a trailing "```". -/
def stripFences (content : String) : String :=
  let cs0 := (pyStrip content).toList
  let cs1 := if List.isPrefixOf ("```json".toList) cs0 then cs0.drop 7 else cs0
  let cs2 := if List.isPrefixOf ("```".toList) cs1 then cs1.drop 3 else cs1
  let cs3 := if List.isSuffixOf ("```".toList) cs2 then cs2.take (cs2.length - 3) else cs2
  String.mk cs3

/-- The `ReceiptData(...)` construction from parsed JSON
    (src/bot.py lines 165-173).  A non-dict top-level value has no `.get`
    (`AttributeError`), and `float(...)` on a non-numeric value raises; both
    land in the enclosing handlers, modelled as `none`. -/
def receiptFromJson (today : String) (j : PyJson) : Option ReceiptData :=
  match j with
  | .obj entries =>
    match pyFloatOfJson (dictGet entries "total_amount" (.num 0)),
          pyFloatOfJson (dictGet entries "confidence" (.num 0)) with
    | some ta, some conf =>
      some { store_name := dictGet entries "store_name" (.str "")
             total_amount := ta
             date := dictGet entries "date" (.str today)
             currency := dictGet entries "currency" (.str "USD")
             items := dictGet entries "items" (.arr [])
             summary := dictGet entries "summary" (.str "")
             confidence := conf }
    | _, _ => none
  | _ => none

/-- The analyzer's availability flags (`self.available`, `self.client`). -/
structure AnalyzerEnv where
  available : Bool
  hasClient : Bool

/-- Outcome of the backend call in `analyze_receipt`: either some step inside
    the `try` raises (network error, missing choices, non-string content), or
    the model replies with a content string. -/
inductive BackendResult where
  | raises
  | replies (content : String)

/-- `OpenAIAnalyzer.analyze_receipt` (src/bot.py lines 93-185).  `today` stands
    for `datetime.now().strftime('%Y-%m-%d')`.  Every failure path of the
    source (unavailable backend, raised exception, `json.JSONDecodeError`,
    `float()` failure on a parsed value) returns the default `ReceiptData()`;
    totality of this definition is the no-throw contract. -/
def analyze_receipt (env : AnalyzerEnv) (today : String) (r : BackendResult) :
    ReceiptData :=
  if !env.available || !env.hasClient then {}
  else
    match r with
    | .raises => {}
    | .replies content =>
      match pyJsonLoads (stripFences content) with
      | none => {}
      | some j =>
        match receiptFromJson today j with
        | none => {}
        | some rec => rec

/-- The two branches of `AIReceiptBot.handle_photo` after analysis
    (src/bot.py lines 486-524). -/
inductive PhotoRoute where
  | aiConfirm
  | manualEntry
deriving Repr, DecidableEq

/-- `if receipt_data.store_name or receipt_data.total_amount > 0:`
    (src/bot.py line 486). -/
def handle_photo_route (rd : ReceiptData) : PhotoRoute :=
  if rd.store_name.truthy || rd.total_amount > 0 then .aiConfirm else .manualEntry

/-- The callback tokens of the inline keyboard each branch offers
    (src/bot.py lines 490-499 and 515-518). -/
def photo_keyboard (rd : ReceiptData) : List String :=
  match handle_photo_route rd with
  | .aiConfirm => ["save_ai", "edit_manual", "reanalyze", "cancel"]
  | .manualEntry => ["edit_manual", "cancel"]

/-- Result of one `get_name` turn (src/bot.py lines 645-669): advance to the
    AMOUNT state carrying the accepted name, or re-prompt (return NAME). -/
inductive NameStep where
  | advance (name : String)
  | stay
deriving Repr, DecidableEq

/-- `AIReceiptBot.get_name` (src/bot.py lines 645-669). -/
def get_name (default_name : String) (text : String) : NameStep :=
  let n1 := pyStrip text
  let n2 := if n1 = "" then default_name else n1
  if n2 = "" then .stay else .advance n2

/-- Result of one `get_amount` turn (src/bot.py lines 671-703): advance to the
    DATE state carrying the accepted amount, or re-prompt (return AMOUNT) with
    one of the two error messages. -/
inductive AmountStep where
  | advance (amount : Rat)
  | stayInvalid
  | stayNonpositive
deriving Repr, DecidableEq

/-- `AIReceiptBot.get_amount` (src/bot.py lines 671-703).  `default_amount`
    models `context.user_data.get('default_amount', 0)`. -/
def get_amount (default_amount : Rat) (text : String) : AmountStep :=
  let amount_text := pyStrip text
  if amount_text = "" then
    if default_amount ≤ 0 then .stayNonpositive else .advance default_amount
  else
    match pyFloatStr (pyStrip (removeChar ',' (removeChar '$' amount_text))) with
    | none => .stayInvalid
    | some amount => if amount ≤ 0 then .stayNonpositive else .advance amount

/-- Result of one `get_date` turn (src/bot.py lines 705-751): advance to the
    CATEGORY state carrying the accepted date, or re-prompt (return DATE). -/
inductive DateStep where
  | advance (date : String)
  | stay
deriving Repr, DecidableEq

def digitVal (c : Char) : Nat := c.toNat - 48

/-- Gregorian leap-year rule, as used by `datetime`. -/
def isLeap (y : Nat) : Bool := (y % 4 = 0 && y % 100 ≠ 0) || y % 400 = 0

def daysInMonth (y m : Nat) : Nat :=
  if m = 2 then (if isLeap y then 29 else 28)
  else if m = 4 || m = 6 || m = 9 || m = 11 then 30
  else 31

/-- The ordered alternatives of CPython strptime's `%m` pattern
    `1[0-2]|0[1-9]|[1-9]`, each with the remaining input. -/
def monthCands : List Char → List (Nat × List Char)
  | c1 :: c2 :: rest =>
    (if c1 = '1' && ('0' ≤ c2 && c2 ≤ '2') then [(10 + digitVal c2, rest)] else []) ++
    (if c1 = '0' && ('1' ≤ c2 && c2 ≤ '9') then [(digitVal c2, rest)] else []) ++
    (if '1' ≤ c1 && c1 ≤ '9' then [(digitVal c1, c2 :: rest)] else [])
  | [c1] => if '1' ≤ c1 && c1 ≤ '9' then [(digitVal c1, [])] else []
  | [] => []

/-- The ordered alternatives of CPython strptime's `%d` pattern
    `3[01]|[12][0-9]|0[1-9]|[1-9]`. -/
def dayCands : List Char → List (Nat × List Char)
  | c1 :: c2 :: rest =>
    (if c1 = '3' && (c2 = '0' || c2 = '1') then [(30 + digitVal c2, rest)] else []) ++
    (if (c1 = '1' || c1 = '2') && c2.isDigit
       then [(10 * digitVal c1 + digitVal c2, rest)] else []) ++
    (if c1 = '0' && ('1' ≤ c2 && c2 ≤ '9') then [(digitVal c2, rest)] else []) ++
    (if '1' ≤ c1 && c1 ≤ '9' then [(digitVal c1, c2 :: rest)] else [])
  | [c1] => if '1' ≤ c1 && c1 ≤ '9' then [(digitVal c1, [])] else []
  | [] => []

/-- `datetime.strptime(s, '%Y-%m-%d')` succeeds: `%Y` is exactly four digits,
    `%m`/`%d` follow the regex alternatives above (with backtracking), the
    whole string must be consumed, and the resulting triple must be a real
    calendar date with year at least 1 (`datetime` construction). -/
def isValidDate (s : String) : Bool :=
  match s.toList with
  | y1 :: y2 :: y3 :: y4 :: '-' :: rest =>
    if y1.isDigit && y2.isDigit && y3.isDigit && y4.isDigit then
      let y := natOfDigits [y1, y2, y3, y4]
      (monthCands rest).any (fun mc =>
        match mc.2 with
        | '-' :: r3 =>
          (dayCands r3).any (fun dc =>
            dc.2.isEmpty && decide (1 ≤ y) && decide (dc.1 ≤ daysInMonth y mc.1))
        | _ => false)
    else false
  | _ => false

/-- `AIReceiptBot.get_date` (src/bot.py lines 705-723).  `default_date` models
    `context.user_data.get('default_date', '')`, `today` models
    `datetime.now().strftime('%Y-%m-%d')`. -/
def get_date (default_date today : String) (text : String) : DateStep :=
  let t1 := pyStrip text
  let t2 :=
    if t1 = "" then default_date
    else if pyLower t1 = "today" then today
    else t1
  if isValidDate t2 then .advance t2 else .stay

/-- The three manual-entry turns chained (NAME -> AMOUNT -> DATE), yielding the
    (name, amount, date) triple stored in `context.user_data` when every turn
    advances. -/
def manual_flow (default_name : String) (default_amount : Rat)
    (default_date today : String)
    (name_text amount_text date_text : String) : Option (String × Rat × String) :=
  match get_name default_name name_text with
  | .stay => none
  | .advance n =>
    match get_amount default_amount amount_text with
    | .advance a =>
      match get_date default_date today date_text with
      | .advance d => some (n, a, d)
      | .stay => none
    | _ => none

/-- Python `str.isdigit()` for ASCII content: non-empty and all digits. -/
def pyIsDigitStr (s : String) : Bool := !s.isEmpty && s.toList.all Char.isDigit

/-- Python `int(s)` on a string that passed `isdigit()`. -/
def pyIntOfDigits (s : String) : Nat := natOfDigits s.toList

/-- `GoogleSheetManager.get_next_id` (src/bot.py lines 280-292) on the id
    column's contents (`col_values(1)`, header included — the code drops it). -/
def get_next_id (col : List String) : Nat :=
  let ids := col.drop 1
  if ids.isEmpty then 1
  else ((ids.filter pyIsDigitStr).map pyIntOfDigits).foldl Nat.max 0 + 1

/-- One spreadsheet cell as handed back by `get_all_records`. -/
inductive Cell where
  | s (v : String)
  | n (v : Rat)
deriving Repr, DecidableEq

/-- Python `str(x)` on a cell value (`toString` stands in for `str` on a
    numeric cell; the Name cells the queries compare are strings). -/
def cellStr : Cell → String
  | .s v => v
  | .n v => toString v

/-- `record.get(k, d)` on one row-as-mapping. -/
def rowGet (row : List (String × Cell)) (k : String) (d : Cell) : Cell :=
  match row.find? (fun p => p.1 == k) with
  | some p => p.2
  | none => d

/-- `GoogleSheetManager.get_transactions` (src/bot.py lines 337-353) over the
    row set; `name = none` models the `name=None` default and an empty string
    is falsy, so both leave the rows unfiltered. -/
def get_transactions (records : List (List (String × Cell))) (name : Option String) :
    List (List (String × Cell)) :=
  match name with
  | none => records
  | some nm =>
    if nm = "" then records
    else records.filter (fun r => pyLower (cellStr (rowGet r "Name" (.s ""))) == pyLower nm)

/-- `float(t.get('Amount', 0))`; `none` models the raise the code skips with
    `continue`. -/
def pyFloatOfCell : Cell → Option Rat
  | .n v => some v
  | .s v => pyFloatStr v

def rowAmount (r : List (String × Cell)) : Option Rat :=
  pyFloatOfCell (rowGet r "Amount" (.n 0))

/-- `GoogleSheetManager.get_total` (src/bot.py lines 355-366). -/
def get_total (records : List (List (String × Cell))) (name : Option String) : Rat :=
  (get_transactions records name).foldl
    (fun total t =>
      match rowAmount t with
      | some a => total + a
      | none => total) 0

/-- The user-visible replies of the commit handlers (only their identity
    matters to the claims; the literal texts are at the cited lines). -/
inductive BotMsg where
  | savedWithAI
  | failedSaveSheets
  | sheetsUnavailable
  | noReceiptData
  | transactionSaved
  | failedSaveSetup
  | categoryPrompt
  | invalidDateFormat
deriving Repr, DecidableEq

/-- What a commit handler leaves behind: the reply sent and whether
    `context.user_data.clear()` ran. -/
structure StepOutcome where
  message : BotMsg
  sessionCleared : Bool
deriving Repr, DecidableEq

/-- The `save_ai` branch of `AIReceiptBot.button_handler`
    (src/bot.py lines 537-581).  `hasReceipt` is `'receipt_data' in user_data`,
    `hasSheets` is `self.sheets is not None`, `saveOk` the return value of
    `add_transaction`.  The early `return` for a missing receipt skips the
    final `context.user_data.clear()`; every other path reaches it. -/
def save_ai_step (hasReceipt hasSheets saveOk : Bool) : StepOutcome :=
  if !hasReceipt then { message := .noReceiptData, sessionCleared := false }
  else if hasSheets then
    if saveOk then { message := .savedWithAI, sessionCleared := true }
    else { message := .failedSaveSheets, sessionCleared := true }
  else { message := .sheetsUnavailable, sessionCleared := true }

/-- `AIReceiptBot.get_category` (src/bot.py lines 753-803): every path clears
    the session and returns `ConversationHandler.END`. -/
def get_category_step (hasSheets saveOk : Bool) : StepOutcome :=
  if hasSheets then
    if saveOk then { message := .transactionSaved, sessionCleared := true }
    else { message := .failedSaveSetup, sessionCleared := true }
  else { message := .sheetsUnavailable, sessionCleared := true }

/-- The message a `get_date` turn ends with: on success the category keyboard
    (src/bot.py line 746), on failure the format error (line 720). -/
def get_date_message : DateStep → BotMsg
  | .advance _ => .categoryPrompt
  | .stay => .invalidDateFormat

/-- The `transaction_data` dict assembled by the `save_ai` branch
    (src/bot.py lines 547-561). -/
structure TransactionData where
  name : PyJson
  amount : Rat
  date : PyJson
  category : String
  store : PyJson
  description : PyJson
  items : PyJson
  confidence : Rat
  currency : PyJson
  summary : PyJson
  has_image : Bool
deriving Repr

/-- `save_ai` record assembly: `'name': receipt_data.store_name or "Receipt"`,
    `'category': 'Shopping'`, etc. (src/bot.py lines 547-561). -/
def save_ai_transaction (rd : ReceiptData) : TransactionData :=
  { name := if rd.store_name.truthy then rd.store_name else .str "Receipt"
    amount := rd.total_amount
    date := rd.date
    category := "Shopping"
    store := rd.store_name
    description := rd.summary
    items := rd.items
    confidence := rd.confidence
    currency := rd.currency
    summary := rd.summary
    has_image := true }

/-- The backend reply of the spec's fenced-JSON scenario. -/
def fencedReply : String :=
  "```json \x7b\"store_name\": \"Shop\", \"total_amount\": 10, \"date\": \"2024-01-01\", \"currency\": \"USD\", \"items\": [], \"summary\": \"milk\", \"confidence\": 0.9\x7d```"

/-! ## Helper lemmas -/

theorem dictGet_not_mem (entries : List (String × PyJson)) (k : String) (d : PyJson)
    (h : k ∉ entries.map Prod.fst) : dictGet entries k d = d := by
  have hf : entries.reverse.find? (fun p => p.1 == k) = none := by
    rw [List.find?_eq_none]
    intro p hp hbeq
    exact h (List.mem_map.mpr ⟨p, List.mem_reverse.mp hp, eq_of_beq hbeq⟩)
  simp [dictGet, hf]

theorem receiptFromJson_fields (today : String) (entries : List (String × PyJson))
    (rec : ReceiptData) (h : receiptFromJson today (.obj entries) = some rec) :
    rec.store_name = dictGet entries "store_name" (.str "") ∧
    rec.date = dictGet entries "date" (.str today) ∧
    rec.currency = dictGet entries "currency" (.str "USD") ∧
    rec.items = dictGet entries "items" (.arr []) ∧
    rec.summary = dictGet entries "summary" (.str "") ∧
    pyFloatOfJson (dictGet entries "total_amount" (.num 0)) = some rec.total_amount ∧
    pyFloatOfJson (dictGet entries "confidence" (.num 0)) = some rec.confidence := by
  have h2 : (match pyFloatOfJson (dictGet entries "total_amount" (PyJson.num 0)),
                  pyFloatOfJson (dictGet entries "confidence" (PyJson.num 0)) with
             | some ta, some conf =>
               some ({ store_name := dictGet entries "store_name" (PyJson.str ""),
                       total_amount := ta,
                       date := dictGet entries "date" (PyJson.str today),
                       currency := dictGet entries "currency" (PyJson.str "USD"),
                       items := dictGet entries "items" (PyJson.arr []),
                       summary := dictGet entries "summary" (PyJson.str ""),
                       confidence := conf } : ReceiptData)
             | _, _ => none) = some rec := h
  clear h
  revert h2
  cases hta : pyFloatOfJson (dictGet entries "total_amount" (PyJson.num 0)) with
  | none => intro h2; simp at h2
  | some ta =>
    cases hcf : pyFloatOfJson (dictGet entries "confidence" (PyJson.num 0)) with
    | none => intro h2; simp at h2
    | some cf =>
      intro h2
      simp only [Option.some.injEq] at h2
      subst h2
      exact ⟨rfl, rfl, rfl, rfl, rfl, rfl, rfl⟩

theorem init_le_foldl_max (l : List Nat) (init : Nat) : init ≤ l.foldl Nat.max init := by
  induction l generalizing init with
  | nil => exact Nat.le_refl _
  | cons x xs ih => exact Nat.le_trans (Nat.le_max_left init x) (ih (Nat.max init x))

theorem le_foldl_max (l : List Nat) : ∀ (init a : Nat), a ∈ l → a ≤ l.foldl Nat.max init := by
  induction l with
  | nil => intro init a h; cases h
  | cons x xs ih =>
    intro init a h
    rcases List.mem_cons.mp h with rfl | hmem
    · exact Nat.le_trans (Nat.le_max_right init a) (init_le_foldl_max xs (Nat.max init a))
    · exact ih (Nat.max init x) a hmem

theorem foldl_amount_eq (l : List (List (String × Cell))) (init : Rat) :
    l.foldl (fun total t =>
        match rowAmount t with
        | some a => total + a
        | none => total) init
      = init + (l.map (fun r => (rowAmount r).getD 0)).sum := by
  induction l generalizing init with
  | nil => simp
  | cons x xs ih =>
    simp only [List.foldl_cons, List.map_cons, List.sum_cons]
    cases hx : rowAmount x with
    | none => rw [ih]; simp [hx]
    | some a => rw [ih]; simp [hx]; ring

/-! ## Claims -/

/-- C1: `analyze_receipt` is a total function into `ReceiptData` (the
    no-throw contract), and whenever the backend is unavailable, the API call
    raises, or the reply is not well-formed JSON after fence-stripping, it
    returns the zero-confidence failure record with every informative field at
    its default. -/
theorem c1_analyze_receipt_fail_soft (env : AnalyzerEnv) (today : String)
    (r : BackendResult)
    (h : env.available = false ∨ env.hasClient = false ∨ r = .raises ∨
      ∀ content, r = .replies content → pyJsonLoads (stripFences content) = none) :
    analyze_receipt env today r =
      { store_name := .str "", total_amount := 0, date := .str "",
        currency := .str "USD", items := .arr [], summary := .str "",
        confidence := 0 } := by
  obtain ⟨avail, hasC⟩ := env
  rcases h with h | h | h | h
  · subst h; rfl
  · subst h; cases avail <;> rfl
  · subst h; cases avail <;> cases hasC <;> rfl
  · cases r with
    | raises => cases avail <;> cases hasC <;> rfl
    | replies content =>
      have hc := h content rfl
      cases avail <;> cases hasC <;> simp [analyze_receipt, hc]

theorem c1_witness :
    analyze_receipt ⟨true, true⟩ "2024-01-01" (.replies "backend small talk") =
      { store_name := .str "", total_amount := 0, date := .str "",
        currency := .str "USD", items := .arr [], summary := .str "",
        confidence := 0 } :=
  c1_analyze_receipt_fail_soft ⟨true, true⟩ "2024-01-01" (.replies "backend small talk")
    (Or.inr (Or.inr (Or.inr (fun content hc => by cases hc; rfl))))

/-- C2 counterexample: the claim "every extractor-produced RawExtraction with
    confidence == 0 is routed to manual entry" is false on the code.  A backend
    reply that omits the `confidence` key parses fine, `float(data.get(
    "confidence", 0))` makes it 0, yet `handle_photo` branches on
    `store_name or total_amount > 0` — so this confidence-0 extraction is
    shown the accept-AI ("save_ai") affordance, not manual entry. -/
theorem c2_counterexample :
    (analyze_receipt ⟨true, true⟩ "2024-01-01"
        (.replies "\x7b\"store_name\": \"Shop\"\x7d")).confidence = 0 ∧
    handle_photo_route
        (analyze_receipt ⟨true, true⟩ "2024-01-01"
          (.replies "\x7b\"store_name\": \"Shop\"\x7d")) = .aiConfirm ∧
    "save_ai" ∈ photo_keyboard
        (analyze_receipt ⟨true, true⟩ "2024-01-01"
          (.replies "\x7b\"store_name\": \"Shop\"\x7d")) := by
  refine ⟨rfl, rfl, ?_⟩
  exact List.mem_cons_self _ _

/-- C2 (amended): `handle_photo` routes on content, not confidence: every
    RawExtraction whose informative content is empty (falsy `store_name` and
    non-positive `total_amount`) — in particular the zero-confidence failure
    record — is routed to manual-entry prompting, and the keyboard it is shown
    carries no "save_ai" affordance; a confidence-0 extraction that still has
    a store name or a positive total gets the confirmation affordance
    instead. -/
theorem c2_empty_content_routes_manual (rd : ReceiptData)
    (h1 : rd.store_name.truthy = false) (h2 : rd.total_amount ≤ 0) :
    handle_photo_route rd = .manualEntry ∧
    photo_keyboard rd = ["edit_manual", "cancel"] ∧
    "save_ai" ∉ photo_keyboard rd := by
  have hcond : (rd.store_name.truthy || decide (rd.total_amount > 0)) = false := by
    rw [h1, Bool.false_or, decide_eq_false_iff_not]
    exact not_lt.mpr h2
  have hroute : handle_photo_route rd = .manualEntry := by
    simp only [handle_photo_route, hcond]
    simp
  have hkb : photo_keyboard rd = ["edit_manual", "cancel"] := by
    simp [photo_keyboard, hroute]
  refine ⟨hroute, hkb, ?_⟩
  rw [hkb]
  simp

theorem c2_witness :
    handle_photo_route
        { store_name := .str "", total_amount := 0, date := .str "",
          currency := .str "USD", items := .arr [], summary := .str "",
          confidence := 0 } = .manualEntry :=
  (c2_empty_content_routes_manual
      { store_name := .str "", total_amount := 0, date := .str "",
        currency := .str "USD", items := .arr [], summary := .str "",
        confidence := 0 } rfl (le_refl 0)).1

/-- C3: a backend reply wrapped in a ```json fence parses, after
    fence-stripping, to exactly the spec's scenario record; and in general the
    record built from parsed JSON carries exactly the dict's values for present
    keys while every absent key gets the documented default (empty string,
    0 amount, "USD" currency, today's date, empty item list, empty summary,
    0 confidence) instead of failing the extraction. -/
theorem c3_fenced_json_exact_values (today : String) :
    analyze_receipt ⟨true, true⟩ today (.replies fencedReply) =
      { store_name := .str "Shop", total_amount := 10, date := .str "2024-01-01",
        currency := .str "USD", items := .arr [], summary := .str "milk",
        confidence := 9 / 10 } ∧
    (∀ entries rec, receiptFromJson today (.obj entries) = some rec →
      rec.store_name = dictGet entries "store_name" (.str "") ∧
      rec.date = dictGet entries "date" (.str today) ∧
      rec.currency = dictGet entries "currency" (.str "USD") ∧
      rec.items = dictGet entries "items" (.arr []) ∧
      rec.summary = dictGet entries "summary" (.str "") ∧
      ("store_name" ∉ entries.map Prod.fst → rec.store_name = .str "") ∧
      ("total_amount" ∉ entries.map Prod.fst → rec.total_amount = 0) ∧
      ("date" ∉ entries.map Prod.fst → rec.date = .str today) ∧
      ("currency" ∉ entries.map Prod.fst → rec.currency = .str "USD") ∧
      ("items" ∉ entries.map Prod.fst → rec.items = .arr []) ∧
      ("summary" ∉ entries.map Prod.fst → rec.summary = .str "") ∧
      ("confidence" ∉ entries.map Prod.fst → rec.confidence = 0)) := by
  constructor
  · have h910 : (9 : Rat) / 10 = mkRat 9 10 := by norm_num [Rat.div_def]
    rw [h910]
    rfl
  · intro entries rec h
    obtain ⟨hs, hd, hc, hi, hsm, hta, hcf⟩ := receiptFromJson_fields today entries rec h
    refine ⟨hs, hd, hc, hi, hsm, ?_, ?_, ?_, ?_, ?_, ?_, ?_⟩
    · intro hnm; rw [hs, dictGet_not_mem _ _ _ hnm]
    · intro hnm
      rw [dictGet_not_mem _ _ _ hnm] at hta
      exact (Option.some.injEq _ _ ▸ hta).symm
    · intro hnm; rw [hd, dictGet_not_mem _ _ _ hnm]
    · intro hnm; rw [hc, dictGet_not_mem _ _ _ hnm]
    · intro hnm; rw [hi, dictGet_not_mem _ _ _ hnm]
    · intro hnm; rw [hsm, dictGet_not_mem _ _ _ hnm]
    · intro hnm
      rw [dictGet_not_mem _ _ _ hnm] at hcf
      exact (Option.some.injEq _ _ ▸ hcf).symm

theorem c3_witness :
    analyze_receipt ⟨true, true⟩ "2024-05-05" (.replies fencedReply) =
      { store_name := .str "Shop", total_amount := 10, date := .str "2024-01-01",
        currency := .str "USD", items := .arr [], summary := .str "milk",
        confidence := 9 / 10 } :=
  (c3_fenced_json_exact_values "2024-05-05").1

/-- C4: in COLLECTING_AMOUNT, empty input falls back to the pre-seeded default
    amount; non-empty input has the dollar sign and thousands-separator commas
    removed before being parsed as a decimal; the turn advances exactly when
    the resulting amount is strictly positive, otherwise it re-prompts and the
    state stays at AMOUNT — in particular empty input over a seeded default of
    0 re-prompts instead of committing amount 0. -/
theorem c4_get_amount_behaviour (d : Rat) (t : String) :
    (pyStrip t = "" →
      get_amount d t = if 0 < d then .advance d else .stayNonpositive) ∧
    (pyStrip t ≠ "" →
      get_amount d t =
        match pyFloatStr (pyStrip (removeChar ',' (removeChar '$' (pyStrip t)))) with
        | none => .stayInvalid
        | some a => if 0 < a then AmountStep.advance a else .stayNonpositive) ∧
    (∀ a, get_amount d t = .advance a → 0 < a) ∧
    get_amount 0 "" = .stayNonpositive := by
  refine ⟨?_, ?_, ?_, rfl⟩
  · intro h
    have hbase : get_amount d t = if d ≤ 0 then .stayNonpositive else .advance d := by
      simp only [get_amount]
      rw [h]
      simp
    rw [hbase]
    rcases le_or_lt d 0 with hd | hd
    · rw [if_pos hd, if_neg (not_lt.mpr hd)]
    · rw [if_neg (not_le.mpr hd), if_pos hd]
  · intro h
    simp only [get_amount]
    rw [if_neg h]
    cases hp : pyFloatStr (pyStrip (removeChar ',' (removeChar '$' (pyStrip t)))) with
    | none => rfl
    | some a =>
      show (if a ≤ 0 then AmountStep.stayNonpositive else AmountStep.advance a)
          = if 0 < a then AmountStep.advance a else AmountStep.stayNonpositive
      rcases le_or_lt a 0 with ha | ha
      · rw [if_pos ha, if_neg (not_lt.mpr ha)]
      · rw [if_neg (not_le.mpr ha), if_pos ha]
  · intro a ha
    simp only [get_amount] at ha
    by_cases h : pyStrip t = ""
    · rw [if_pos h] at ha
      by_cases hd : d ≤ 0
      · rw [if_pos hd] at ha; cases ha
      · rw [if_neg hd] at ha; cases ha; exact not_le.mp hd
    · rw [if_neg h] at ha
      cases hp : pyFloatStr (pyStrip (removeChar ',' (removeChar '$' (pyStrip t)))) with
      | none => rw [hp] at ha; cases ha
      | some v =>
        rw [hp] at ha
        have ha2 : (if v ≤ 0 then AmountStep.stayNonpositive else AmountStep.advance v)
            = AmountStep.advance a := ha
        by_cases hv : v ≤ 0
        · rw [if_pos hv] at ha2; cases ha2
        · rw [if_neg hv] at ha2; cases ha2; exact not_le.mp hv

theorem c4_witness :
    0 < (51 : Rat) / 2 ∧ get_amount 0 "$25.50" = .advance ((51 : Rat) / 2) ∧
    get_amount 0 "" = .stayNonpositive := by
  have h := c4_get_amount_behaviour 0 "$25.50"
  have h2 := h.2.1 (by decide)
  have hv : (51 : Rat) / 2 = mkRat 51 2 := by norm_num [Rat.div_def]
  have hpos : 0 < (51 : Rat) / 2 := by norm_num
  refine ⟨hpos, ?_, (c4_get_amount_behaviour 0 "").2.2.2⟩
  rw [hv] at hpos ⊢
  rw [h2]
  show (match pyFloatStr (pyStrip (removeChar ',' (removeChar '$' (pyStrip "$25.50")))) with
        | none => AmountStep.stayInvalid
        | some a => if 0 < a then AmountStep.advance a else .stayNonpositive)
      = .advance (mkRat 51 2)
  show (if 0 < mkRat 51 2 then AmountStep.advance (mkRat 51 2) else .stayNonpositive)
      = .advance (mkRat 51 2)
  rw [if_pos hpos]

/-- C5: in COLLECTING_DATE, empty input substitutes the pre-seeded default
    date; the literal token "today" (case-insensitively) resolves to the
    current local date; any other value advances exactly when it parses
    against `%Y-%m-%d`, otherwise the turn re-prompts and stays at DATE.
    The concrete evaluations exercise the strptime model: calendar validation,
    single-digit month/day, and rejection of other formats. -/
theorem c5_get_date_behaviour (dd today t : String) :
    (pyStrip t = "" →
      get_date dd today t = if isValidDate dd then .advance dd else .stay) ∧
    (pyStrip t ≠ "" → pyLower (pyStrip t) = "today" → isValidDate today = true →
      get_date dd today t = .advance today) ∧
    (pyStrip t ≠ "" → pyLower (pyStrip t) ≠ "today" →
      get_date dd today t = if isValidDate (pyStrip t) then .advance (pyStrip t) else .stay) ∧
    (∀ s, get_date dd today t = .advance s → isValidDate s = true) ∧
    isValidDate "2024-01-31" = true ∧ isValidDate "2024-02-29" = true ∧
    isValidDate "2023-02-29" = false ∧ isValidDate "2024-02-30" = false ∧
    isValidDate "2024-1-5" = true ∧ isValidDate "01/02/2024" = false ∧
    isValidDate "2024-13-01" = false := by
  refine ⟨?_, ?_, ?_, ?_, rfl, rfl, rfl, rfl, rfl, rfl, rfl⟩
  · intro h
    simp only [get_date]
    rw [if_pos h]
  · intro h1 h2 h3
    simp only [get_date]
    rw [if_neg h1, if_pos h2, h3]
    simp
  · intro h1 h2
    simp only [get_date]
    rw [if_neg h1, if_neg h2]
  · intro s hs
    simp only [get_date] at hs
    by_cases hv : isValidDate (if pyStrip t = "" then dd
        else if pyLower (pyStrip t) = "today" then today else pyStrip t)
    · rw [if_pos hv] at hs
      cases hs
      exact hv
    · rw [if_neg hv] at hs
      cases hs

theorem c5_witness :
    get_date "" "2024-05-05" "TODAY" = .advance "2024-05-05" :=
  (c5_get_date_behaviour "" "2024-05-05" "TODAY").2.1 (by decide) (by decide) (by decide)

/-- C6: the manual-entry round trip of the spec: name "Acme", amount
    "1,234.50", date "today" yields the candidate triple
    ("Acme", 1234.50, today's ISO date) — the comma is removed before the
    decimal parse and "today" resolves to the current date. -/
theorem c6_manual_roundtrip (dn : String) (da : Rat) (dd today : String)
    (h : isValidDate today = true) :
    manual_flow dn da dd today "Acme" "1,234.50" "today" =
      some ("Acme", (2469 : Rat) / 2, today) := by
  have hval : (2469 : Rat) / 2 = mkRat 2469 2 := by norm_num [Rat.div_def]
  rw [hval]
  have h1 : get_name dn "Acme" = .advance "Acme" := rfl
  have h2 : get_amount da "1,234.50" = .advance (mkRat 2469 2) := rfl
  have h3 : get_date dd today "today" = .advance today := by
    simp only [get_date]
    rw [if_neg (by decide : ¬ (pyStrip "today" = "")),
        if_pos (by decide : pyLower (pyStrip "today") = "today"), h]
    simp
  simp [manual_flow, h1, h2, h3]

theorem c6_witness :
    manual_flow "" 0 "" "2024-01-01" "Acme" "1,234.50" "today" =
      some ("Acme", (2469 : Rat) / 2, "2024-01-01") :=
  c6_manual_roundtrip "" 0 "" "2024-01-01" (by decide)

/-- C7: `get_next_id` allocates max(numeric existing ids) + 1, skipping
    non-numeric id cells without failing: ids [1,2,5] give 6, an empty id
    column gives 1, a non-numeric value among the ids is ignored; in general
    the allocated id is at least 1 and strictly greater than every numeric id
    already present (so ids are never reused). -/
theorem c7_get_next_id (col : List String) :
    get_next_id ["ID", "1", "2", "5"] = 6 ∧
    get_next_id ["ID"] = 1 ∧
    get_next_id [] = 1 ∧
    get_next_id ["ID", "1", "x7", "5"] = 6 ∧
    1 ≤ get_next_id col ∧
    (∀ s, s ∈ col.drop 1 → pyIsDigitStr s = true → pyIntOfDigits s < get_next_id col) := by
  refine ⟨by decide, by decide, by decide, by decide, ?_, ?_⟩
  · simp only [get_next_id]
    by_cases h : (col.drop 1).isEmpty
    · rw [if_pos h]
    · rw [if_neg h]
      exact Nat.succ_le_succ (Nat.zero_le _)
  · intro s hs hd
    have hne : (col.drop 1).isEmpty = false := by
      cases h' : col.drop 1 with
      | nil => rw [h'] at hs; cases hs
      | cons _ _ => rfl
    simp only [get_next_id]
    rw [hne]
    simp only [Bool.false_eq_true, if_false]
    exact Nat.lt_succ_of_le
      (le_foldl_max _ 0 _
        (List.mem_map.mpr ⟨s, List.mem_filter.mpr ⟨hs, hd⟩, rfl⟩))

theorem c7_witness : pyIntOfDigits "3" < get_next_id ["ID", "3"] :=
  (c7_get_next_id ["ID", "3"]).2.2.2.2.2 "3" (by decide) (by decide)

/-- C8: `get_total` returns the sum of the Amount values over the rows whose
    Name matches the filter case-insensitively and exactly (all rows when no
    name is given; unparsable amounts are skipped, i.e. contribute 0); the
    empty filtered set sums to 0; and the function is deterministic in the row
    set, so two calls over the same rows return identical values. -/
theorem c8_get_total (records : List (List (String × Cell))) (name : Option String) :
    get_total records name
      = ((get_transactions records name).map (fun r => (rowAmount r).getD 0)).sum ∧
    (get_transactions records name = [] → get_total records name = 0) ∧
    (∀ nm r, r ∈ get_transactions records (some nm) → nm ≠ "" →
      pyLower (cellStr (rowGet r "Name" (.s ""))) = pyLower nm) ∧
    get_transactions records none = records ∧
    get_total records name = get_total records name := by
  refine ⟨?_, ?_, ?_, rfl, rfl⟩
  · unfold get_total
    rw [foldl_amount_eq]
    simp
  · intro h
    unfold get_total
    rw [h]
    rfl
  · intro nm r hr hnm
    simp only [get_transactions] at hr
    rw [if_neg hnm] at hr
    exact eq_of_beq (List.mem_filter.mp hr).2

theorem c8_witness : get_total [] none = 0 :=
  (c8_get_total [] none).2.1 rfl

/-- C9: after a commit attempt (ledger collaborator present; for the save_ai
    button also a receipt in the session), both the accept-AI handler and the
    category-selection handler clear the user's session whether
    `add_transaction` succeeds or fails — so the conversation returns to idle
    either way — and on failure the user gets the failed-save message of the
    respective handler (`get_category` additionally returns
    `ConversationHandler.END` on every path, which the cleared flag models). -/
theorem c9_commit_clears_session :
    (∀ ok : Bool, (save_ai_step true true ok).sessionCleared = true) ∧
    (∀ ok : Bool, (get_category_step true ok).sessionCleared = true) ∧
    (save_ai_step true true false).message = .failedSaveSheets ∧
    (get_category_step true false).message = .failedSaveSetup := by
  refine ⟨?_, ?_, rfl, rfl⟩ <;> intro ok <;> cases ok <;> rfl

/-- C10 (implicit): every record committed through the accept-AI path is
    assigned the fixed category "Shopping"; its name falls back to the literal
    "Receipt" exactly when the extracted store_name is falsy (in particular
    when it is the empty string), and otherwise is the store name itself; and
    no message this handler can emit is the category-selection prompt, so the
    user is never asked to pick a category on this path. -/
theorem c10_save_ai_fixed_category (rd : ReceiptData) :
    (save_ai_transaction rd).category = "Shopping" ∧
    (rd.store_name = .str "" → (save_ai_transaction rd).name = .str "Receipt") ∧
    (∀ s, s ≠ "" → rd.store_name = .str s → (save_ai_transaction rd).name = .str s) ∧
    (∀ hasReceipt hasSheets saveOk : Bool,
      (save_ai_step hasReceipt hasSheets saveOk).message ≠ .categoryPrompt) := by
  refine ⟨rfl, ?_, ?_, ?_⟩
  · intro h
    simp [save_ai_transaction, h, PyJson.truthy]
  · intro s hs h
    simp [save_ai_transaction, h, PyJson.truthy, hs]
  · intro hasReceipt hasSheets saveOk
    cases hasReceipt <;> cases hasSheets <;> cases saveOk <;> simp [save_ai_step]

theorem c10_witness :
    (save_ai_transaction {}).category = "Shopping" ∧
    (save_ai_transaction {}).name = .str "Receipt" :=
  ⟨(c10_save_ai_fixed_category {}).1, (c10_save_ai_fixed_category {}).2.1 rfl⟩
